import Mathlib

/-
Verification of the StreamPay ledger (Solidity contract `StreamPay`).

Shallow embedding conventions:
* `uint256` values are modelled as `Nat`.  Solidity 0.8 uses checked
  arithmetic: subtraction that would underflow reverts, which we model
  explicitly with `checkedSub` returning `Except`.  Addition and
  multiplication overflow would likewise revert (never wrap), so on any
  execution that completes, plain `Nat` arithmetic agrees with the source.
* Addresses are modelled as `Nat` (`0` plays the role of `address(0)`).
* Each externally callable function becomes a function
  `SPState → ... → Except Err (SPState × List Event)`: `Except.error`
  models a revert (the transaction commits nothing), `Except.ok` returns
  the post-state together with the ordered trace of durable state writes
  (`mutate`/`credit`/`debit`) and outgoing value transfers (`transfer`),
  in source order.
* Solidity mappings (`streams`, `subscriptions`, `balances`, the index
  lists) become total functions with the zero record / zero / `[]` as the
  default value, exactly as EVM storage defaults.
-/

namespace StreamPay

/-- Revert reasons of the contract, one constructor per `require` message
(plus `arithUnderflow` for checked-subtraction reverts of Solidity 0.8). -/
inductive Err where
  | invalidRecipient
  | selfStream
  | zeroDuration
  | zeroRate
  | insufficientDeposit
  | streamNotFound
  | notRecipient
  | streamNotActive
  | nothingToWithdraw
  | notAuthorized
  | invalidProvider
  | selfSubscription
  | zeroDeposit
  | subNotActive
  | insufficientBalance
  | alreadyCancelled
  | notSubscriber
  | mustSendValue
  | noBalance
  | feeTooHigh
  | notOwner
  | arithUnderflow
deriving DecidableEq

/-- Decidable equality of transaction results, so concrete runs can be
checked by `decide`. -/
instance instDecEqExcept {ε α : Type} [DecidableEq ε] [DecidableEq α] :
    DecidableEq (Except ε α) := fun x y =>
  match x, y with
  | Except.ok a, Except.ok b =>
    if h : a = b then Decidable.isTrue (by rw [h])
    else Decidable.isFalse (by intro hh; injection hh; contradiction)
  | Except.error a, Except.error b =>
    if h : a = b then Decidable.isTrue (by rw [h])
    else Decidable.isFalse (by intro hh; injection hh; contradiction)
  | Except.ok _, Except.error _ => Decidable.isFalse (by intro hh; injection hh)
  | Except.error _, Except.ok _ => Decidable.isFalse (by intro hh; injection hh)

/-- Storage slots a mutation event can refer to. -/
inductive Field where
  | streamsEntry
  | streamRemainingBalance
  | streamActive
  | subsEntry
  | subLastPaymentTime
  | subActive
  | balancesEntry
  | userStreamsEntry
  | recipientStreamsEntry
  | userSubscriptionsEntry
  | nextStreamIdF
  | nextSubscriptionIdF
  | platformFeeF
deriving DecidableEq

/-- One step of an operation's execution, in source order: durable state
writes (`mutate` for entity fields and counters, `credit`/`debit` for
balance-table writes, carrying the amount) and outgoing value transfers
(`payable(...).transfer(amount)`). -/
inductive Event where
  | mutate (f : Field)
  | credit (account : Nat) (amount : Nat)
  | debit (account : Nat) (amount : Nat)
  | transfer (dest : Nat) (amount : Nat)
deriving DecidableEq

/-- True for durable state writes (entity fields, counters, balance table). -/
def Event.isMutation : Event → Bool
  | Event.mutate _ => true
  | Event.credit _ _ => true
  | Event.debit _ _ => true
  | Event.transfer _ _ => false

/-- True for outgoing value transfers. -/
def Event.isTransfer : Event → Bool
  | Event.transfer _ _ => true
  | Event.mutate _ => false
  | Event.credit _ _ => false
  | Event.debit _ _ => false

/-- An execution trace keeps all value transfers strictly after all state
mutations: after dropping the leading block of mutations, only transfers
remain (so no mutation follows any transfer). -/
def transfersLast (tr : List Event) : Bool :=
  (tr.dropWhile Event.isMutation).all Event.isTransfer

/-- Mirror of `struct Stream`. -/
structure Stream where
  id : Nat
  sender : Nat
  recipient : Nat
  deposit : Nat
  ratePerSecond : Nat
  startTime : Nat
  stopTime : Nat
  remainingBalance : Nat
  active : Bool
deriving DecidableEq

/-- The EVM default value of `streams[i]` for an unallocated id. -/
def Stream.default0 : Stream :=
  { id := 0, sender := 0, recipient := 0, deposit := 0, ratePerSecond := 0,
    startTime := 0, stopTime := 0, remainingBalance := 0, active := false }

/-- Mirror of `struct Subscription`. -/
structure Subscription where
  id : Nat
  subscriber : Nat
  provider : Nat
  ratePerSecond : Nat
  lastPaymentTime : Nat
  active : Bool
deriving DecidableEq

/-- The EVM default value of `subscriptions[i]` for an unallocated id. -/
def Subscription.default0 : Subscription :=
  { id := 0, subscriber := 0, provider := 0, ratePerSecond := 0,
    lastPaymentTime := 0, active := false }

/-- The contract's storage: the two entity mappings, the index lists, the
shared withdrawable-balance table, the id allocators, the fee rate in
basis points and the `Ownable` owner. -/
structure SPState where
  streams : Nat → Stream
  subscriptions : Nat → Subscription
  userStreams : Nat → List Nat
  recipientStreams : Nat → List Nat
  userSubscriptions : Nat → List Nat
  balances : Nat → Nat
  nextStreamId : Nat
  nextSubscriptionId : Nat
  platformFee : Nat
  owner : Nat

/-- Storage right after the constructor: empty mappings, both id counters
at 1, `platformFee = 10` basis points, owner as deployed. -/
def initState (ownerAddr : Nat) : SPState :=
  { streams := fun _ => Stream.default0
    subscriptions := fun _ => Subscription.default0
    userStreams := fun _ => []
    recipientStreams := fun _ => []
    userSubscriptions := fun _ => []
    balances := fun _ => 0
    nextStreamId := 1
    nextSubscriptionId := 1
    platformFee := 10
    owner := ownerAddr }

/-- Checked subtraction: Solidity 0.8 `a - b` reverts when `b > a`. -/
def checkedSub (a b : Nat) : Except Err Nat :=
  if b ≤ a then Except.ok (a - b) else Except.error Err.arithUnderflow

/-- The settlement split used verbatim by `withdrawFromStream` (lines
179-180), `cancelStream` (211-212), `processSubscriptionPayment` (268-269)
and `cancelSubscription` (294-295):
`fee = gross * feeBps / 10000` (integer division) and
`net = gross - fee` (checked subtraction). -/
def feeSplit (gross feeBps : Nat) : Except Err (Nat × Nat) :=
  match checkedSub gross (gross * feeBps / 10000) with
  | Except.error e => Except.error e
  | Except.ok net => Except.ok (gross * feeBps / 10000, net)

/-- `balanceOf` (lines 140-166): the accrual split of an existing stream at
time `timestamp`. -/
def balanceOf (s : SPState) (timestamp streamId : Nat) : Except Err (Nat × Nat) :=
  if (s.streams streamId).id = 0 then Except.error Err.streamNotFound
  else if (s.streams streamId).active = false then
    Except.ok (0, (s.streams streamId).remainingBalance)
  else
    match (if (s.streams streamId).stopTime ≤ timestamp
           then checkedSub (s.streams streamId).stopTime (s.streams streamId).startTime
           else checkedSub timestamp (s.streams streamId).startTime) with
    | Except.error e => Except.error e
    | Except.ok elapsedTime =>
      if (s.streams streamId).deposit ≤ elapsedTime * (s.streams streamId).ratePerSecond then
        Except.ok ((s.streams streamId).remainingBalance, 0)
      else
        Except.ok (elapsedTime * (s.streams streamId).ratePerSecond,
          (s.streams streamId).deposit - elapsedTime * (s.streams streamId).ratePerSecond)

/-- `createStream` (lines 96-135): allocates an id, stores the stream,
appends to both index lists, refunds any excess supplied value last.
Returns the new state, the trace and the new stream id. -/
def createStream (s : SPState) (timestamp caller recipient duration ratePerSecond msgValue : Nat) :
    Except Err (SPState × List Event × Nat) :=
  if recipient = 0 then Except.error Err.invalidRecipient
  else if recipient = caller then Except.error Err.selfStream
  else if duration = 0 then Except.error Err.zeroDuration
  else if ratePerSecond = 0 then Except.error Err.zeroRate
  else
    let deposit := ratePerSecond * duration
    if msgValue < deposit then Except.error Err.insufficientDeposit
    else
      let streamId := s.nextStreamId
      let startTime := timestamp
      let stopTime := startTime + duration
      let stream : Stream :=
        { id := streamId, sender := caller, recipient := recipient, deposit := deposit,
          ratePerSecond := ratePerSecond, startTime := startTime, stopTime := stopTime,
          remainingBalance := deposit, active := true }
      let s2 : SPState :=
        { s with
          nextStreamId := s.nextStreamId + 1
          streams := fun i => if i = streamId then stream else s.streams i
          userStreams := fun a => if a = caller then s.userStreams a ++ [streamId] else s.userStreams a
          recipientStreams := fun a =>
            if a = recipient then s.recipientStreams a ++ [streamId] else s.recipientStreams a }
      let tr : List Event :=
        [Event.mutate Field.nextStreamIdF, Event.mutate Field.streamsEntry,
         Event.mutate Field.userStreamsEntry, Event.mutate Field.recipientStreamsEntry] ++
        (if deposit < msgValue then [Event.transfer caller (msgValue - deposit)] else [])
      Except.ok (s2, tr, streamId)

/-- `withdrawFromStream` (lines 171-192): recipient-only withdrawal of the
accrued share; writes `remainingBalance`, possibly the `active` flag and
the owner's fee credit before the single outgoing transfer. -/
def withdrawFromStream (s : SPState) (timestamp caller streamId : Nat) :
    Except Err (SPState × List Event) :=
  let stream := s.streams streamId
  if stream.recipient ≠ caller then Except.error Err.notRecipient
  else if stream.active = false then Except.error Err.streamNotActive
  else
    match balanceOf s timestamp streamId with
    | Except.error e => Except.error e
    | Except.ok (recipientBalance, _) =>
      if recipientBalance = 0 then Except.error Err.nothingToWithdraw
      else
        match feeSplit recipientBalance s.platformFee with
        | Except.error e => Except.error e
        | Except.ok (fee, netAmount) =>
          match checkedSub stream.remainingBalance recipientBalance with
          | Except.error e => Except.error e
          | Except.ok newRemaining =>
            let deactivate : Bool := stream.stopTime ≤ timestamp ∨ newRemaining = 0
            let stream2 : Stream :=
              { stream with
                remainingBalance := newRemaining
                active := if deactivate then false else stream.active }
            let s2 : SPState :=
              { s with
                streams := fun i => if i = streamId then stream2 else s.streams i
                balances := fun a =>
                  if a = s.owner then s.balances s.owner + fee else s.balances a }
            let tr : List Event :=
              [Event.mutate Field.streamRemainingBalance] ++
              (if deactivate then [Event.mutate Field.streamActive] else []) ++
              [Event.credit s.owner fee, Event.transfer caller netAmount]
            Except.ok (s2, tr)

/-- `cancelStream` (lines 197-222): sender or recipient terminates an
active stream; the stream is deactivated and zeroed first, then the
recipient's net share (fee extracted) and the sender's unvested share are
transferred. -/
def cancelStream (s : SPState) (timestamp caller streamId : Nat) :
    Except Err (SPState × List Event) :=
  let stream := s.streams streamId
  if stream.sender ≠ caller ∧ stream.recipient ≠ caller then Except.error Err.notAuthorized
  else if stream.active = false then Except.error Err.streamNotActive
  else
    match balanceOf s timestamp streamId with
    | Except.error e => Except.error e
    | Except.ok (recipientBalance, senderBalance) =>
      let stream2 : Stream := { stream with active := false, remainingBalance := 0 }
      let s1 : SPState :=
        { s with streams := fun i => if i = streamId then stream2 else s.streams i }
      let tr0 : List Event :=
        [Event.mutate Field.streamActive, Event.mutate Field.streamRemainingBalance]
      let tailTr : List Event :=
        if 0 < senderBalance then [Event.transfer stream.sender senderBalance] else []
      if 0 < recipientBalance then
        match feeSplit recipientBalance s.platformFee with
        | Except.error e => Except.error e
        | Except.ok (fee, netAmount) =>
          let s2 : SPState :=
            { s1 with balances := fun a =>
                if a = s.owner then s1.balances s.owner + fee else s1.balances a }
          Except.ok (s2, tr0 ++ [Event.credit s.owner fee,
            Event.transfer stream.recipient netAmount] ++ tailTr)
      else
        Except.ok (s1, tr0 ++ tailTr)

/-- `createSubscription` (lines 227-252): creates an active subscription
with `lastPaymentTime = now` and credits the supplied value to the
subscriber's shared balance entry. -/
def createSubscription (s : SPState) (timestamp caller provider ratePerSecond msgValue : Nat) :
    Except Err (SPState × List Event × Nat) :=
  if provider = 0 then Except.error Err.invalidProvider
  else if provider = caller then Except.error Err.selfSubscription
  else if ratePerSecond = 0 then Except.error Err.zeroRate
  else if msgValue = 0 then Except.error Err.zeroDeposit
  else
    let subscriptionId := s.nextSubscriptionId
    let sub : Subscription :=
      { id := subscriptionId, subscriber := caller, provider := provider,
        ratePerSecond := ratePerSecond, lastPaymentTime := timestamp, active := true }
    let s2 : SPState :=
      { s with
        nextSubscriptionId := s.nextSubscriptionId + 1
        subscriptions := fun i => if i = subscriptionId then sub else s.subscriptions i
        userSubscriptions := fun a =>
          if a = caller then s.userSubscriptions a ++ [subscriptionId] else s.userSubscriptions a
        balances := fun a => if a = caller then s.balances a + msgValue else s.balances a }
    Except.ok (s2,
      [Event.mutate Field.nextSubscriptionIdF, Event.mutate Field.subsEntry,
       Event.mutate Field.userSubscriptionsEntry, Event.credit caller msgValue],
      subscriptionId)

/-- `processSubscriptionPayment` (lines 257-277): callable by anyone;
debits the accrued `elapsed * ratePerSecond` from the subscriber's shared
balance, credits the fee, transfers the net to the provider and only then
writes `lastPaymentTime` (the write order of the source is kept in the
trace). -/
def processSubscriptionPayment (s : SPState) (timestamp subscriptionId : Nat) :
    Except Err (SPState × List Event) :=
  let sub := s.subscriptions subscriptionId
  if sub.active = false then Except.error Err.subNotActive
  else
    match checkedSub timestamp sub.lastPaymentTime with
    | Except.error e => Except.error e
    | Except.ok elapsedTime =>
      let payment := elapsedTime * sub.ratePerSecond
      if s.balances sub.subscriber < payment then Except.error Err.insufficientBalance
      else
        match feeSplit payment s.platformFee with
        | Except.error e => Except.error e
        | Except.ok (fee, netPayment) =>
          let bal1 := fun a =>
            if a = sub.subscriber then s.balances sub.subscriber - payment else s.balances a
          let bal2 := fun a => if a = s.owner then bal1 s.owner + fee else bal1 a
          let sub2 : Subscription := { sub with lastPaymentTime := timestamp }
          let s2 : SPState :=
            { s with
              balances := bal2
              subscriptions := fun i => if i = subscriptionId then sub2 else s.subscriptions i }
          Except.ok (s2,
            [Event.debit sub.subscriber payment, Event.credit s.owner fee,
             Event.transfer sub.provider netPayment, Event.mutate Field.subLastPaymentTime])

/-- `cancelSubscription` (lines 282-304): subscriber or provider cancels;
a final settlement runs only when the shared balance is positive, the
accrued payment is positive and the balance covers it, and is silently
skipped otherwise; the `active` flag is cleared last (after the payout, as
in the source). -/
def cancelSubscription (s : SPState) (timestamp caller subscriptionId : Nat) :
    Except Err (SPState × List Event) :=
  let sub := s.subscriptions subscriptionId
  if sub.subscriber ≠ caller ∧ sub.provider ≠ caller then Except.error Err.notAuthorized
  else if sub.active = false then Except.error Err.alreadyCancelled
  else
    let finish := fun (s1 : SPState) (ev : List Event) =>
      let sub2 : Subscription := { s1.subscriptions subscriptionId with active := false }
      let s2 : SPState :=
        { s1 with subscriptions := fun i => if i = subscriptionId then sub2 else s1.subscriptions i }
      Except.ok (s2, ev ++ [Event.mutate Field.subActive])
    if 0 < s.balances sub.subscriber then
      match checkedSub timestamp sub.lastPaymentTime with
      | Except.error e => Except.error e
      | Except.ok elapsedTime =>
        let payment := elapsedTime * sub.ratePerSecond
        if 0 < payment ∧ payment ≤ s.balances sub.subscriber then
          match feeSplit payment s.platformFee with
          | Except.error e => Except.error e
          | Except.ok (fee, netPayment) =>
            let bal1 := fun a =>
              if a = sub.subscriber then s.balances sub.subscriber - payment else s.balances a
            let bal2 := fun a => if a = s.owner then bal1 s.owner + fee else bal1 a
            finish { s with balances := bal2 }
              [Event.debit sub.subscriber payment, Event.credit s.owner fee,
               Event.transfer sub.provider netPayment]
        else finish s []
    else finish s []

/-- `topUpSubscription` (lines 309-316): subscriber adds funds to the
shared balance entry. -/
def topUpSubscription (s : SPState) (caller subscriptionId msgValue : Nat) :
    Except Err (SPState × List Event) :=
  let sub := s.subscriptions subscriptionId
  if sub.subscriber ≠ caller then Except.error Err.notSubscriber
  else if sub.active = false then Except.error Err.subNotActive
  else if msgValue = 0 then Except.error Err.mustSendValue
  else
    Except.ok
      ({ s with balances := fun a => if a = caller then s.balances a + msgValue else s.balances a },
       [Event.credit caller msgValue])

/-- `withdraw` (lines 321-327): pays out and zeroes the caller's generic
balance entry; the zeroing write precedes the transfer. -/
def withdraw (s : SPState) (caller : Nat) : Except Err (SPState × List Event) :=
  let balance := s.balances caller
  if balance = 0 then Except.error Err.noBalance
  else
    Except.ok
      ({ s with balances := fun a => if a = caller then 0 else s.balances a },
       [Event.mutate Field.balancesEntry, Event.transfer caller balance])

/-- The named return values of `getStream`. -/
structure StreamView where
  sender : Nat
  recipient : Nat
  deposit : Nat
  ratePerSecond : Nat
  startTime : Nat
  stopTime : Nat
  remainingBalance : Nat
  active : Bool
deriving DecidableEq

/-- `getStream` (lines 353-374): read accessor with no existence check; an
unallocated id yields the default (all-zero) record's fields. -/
def getStream (s : SPState) (streamId : Nat) : StreamView :=
  let stream := s.streams streamId
  { sender := stream.sender, recipient := stream.recipient, deposit := stream.deposit,
    ratePerSecond := stream.ratePerSecond, startTime := stream.startTime,
    stopTime := stream.stopTime, remainingBalance := stream.remainingBalance,
    active := stream.active }

/-- `setPlatformFee` (lines 404-407): owner-only, capped at 1000 bps. -/
def setPlatformFee (s : SPState) (caller newFee : Nat) : Except Err (SPState × List Event) :=
  if caller ≠ s.owner then Except.error Err.notOwner
  else if 1000 < newFee then Except.error Err.feeTooHigh
  else Except.ok ({ s with platformFee := newFee }, [Event.mutate Field.platformFeeF])

/-- Result of a transaction on state `s`: on success the new state, on a
revert the unchanged `s` (a reverted transaction commits nothing). -/
def applyTx (s : SPState) (r : Except Err (SPState × List Event)) : SPState :=
  match r with
  | Except.ok (s2, _) => s2
  | Except.error _ => s

/-- The trace of a successful transaction, `[]` for a revert. -/
def traceOrNil (r : Except Err (SPState × List Event)) : List Event :=
  match r with
  | Except.ok (_, tr) => tr
  | Except.error _ => []

/-- Lifts a Boolean trace property over a transaction result: vacuously
true for a revert. -/
def traceProp (p : List Event → Bool) (r : Except Err (SPState × List Event)) : Bool :=
  match r with
  | Except.ok (_, tr) => p tr
  | Except.error _ => true

/-- The revert reason of a transaction result, `none` on success; lets a
revert be checked by `decide` even though full states are not comparable. -/
def errOf {α : Type} (r : Except Err α) : Option Err :=
  match r with
  | Except.ok _ => none
  | Except.error e => some e

/-- The stream of the spec's worked scenario: deposit 3600, rate 1/s,
duration 3600s starting at 0, untouched (`remainingBalance = deposit`). -/
def streamW : Stream :=
  { id := 1, sender := 1, recipient := 2, deposit := 3600, ratePerSecond := 1,
    startTime := 0, stopTime := 3600, remainingBalance := 3600, active := true }

/-- Deployed state (owner = account 0, fee = 10 bps) holding `streamW` as
stream 1. -/
def sW : SPState :=
  { initState 0 with
    streams := fun i => if i = 1 then streamW else Stream.default0
    nextStreamId := 2 }

/-- A live subscription: subscriber 3, provider 4, rate 5/s, last settled
at time 1000. -/
def subW : Subscription :=
  { id := 1, subscriber := 3, provider := 4, ratePerSecond := 5,
    lastPaymentTime := 1000, active := true }

/-- Deployed state (owner = account 0, fee = 10 bps) holding `subW` as
subscription 1, with the subscriber's shared balance at 100. -/
def subSW : SPState :=
  { initState 0 with
    subscriptions := fun i => if i = 1 then subW else Subscription.default0
    nextSubscriptionId := 2
    balances := fun a => if a = 3 then 100 else 0 }

/-- End-to-end run for the stream-invariant counterexample: create a
3600-unit stream at time 0, withdraw the accrued half at time 1800, then
query `balanceOf` at time 2000 (< stopTime, stream still active); reports
the queried pair, the stored `remainingBalance`, the `stopTime` and the
`active` flag. -/
def c1Run : Except Err (Nat × Nat × Nat × Nat × Bool) :=
  match createStream (initState 0) 0 1 2 3600 1 3600 with
  | Except.error e => Except.error e
  | Except.ok (s1, _, sid) =>
    match withdrawFromStream s1 1800 2 sid with
    | Except.error e => Except.error e
    | Except.ok (s2, _) =>
      match balanceOf s2 2000 sid with
      | Except.error e => Except.error e
      | Except.ok (rb, sb) =>
        Except.ok (rb, sb, (s2.streams sid).remainingBalance,
          (s2.streams sid).stopTime, (s2.streams sid).active)

/-- Observables of the spec's withdrawal scenario: the trace of
`withdrawFromStream` on `streamW` at time 1800 by the recipient, the
platform (owner) balance entry afterwards, the stream's
`remainingBalance` and its `active` flag. -/
def c2Obs : Except Err (List Event × Nat × Nat × Bool) :=
  match withdrawFromStream sW 1800 2 1 with
  | Except.error e => Except.error e
  | Except.ok (s2, tr) =>
    Except.ok (tr, s2.balances 0, (s2.streams 1).remainingBalance, (s2.streams 1).active)

theorem checkedSub_ok {a b : Nat} (h : b ≤ a) : checkedSub a b = Except.ok (a - b) := by
  unfold checkedSub
  rw [if_pos h]

theorem fee_le_gross {gross feeBps : Nat} (h : feeBps ≤ 10000) :
    gross * feeBps / 10000 ≤ gross := by
  have h1 : gross * feeBps ≤ gross * 10000 := Nat.mul_le_mul_left gross h
  calc gross * feeBps / 10000 ≤ gross * 10000 / 10000 := Nat.div_le_div_right h1
    _ = gross := Nat.mul_div_cancel gross (by norm_num)

theorem feeSplit_ok {gross feeBps : Nat} (h : feeBps ≤ 10000) :
    feeSplit gross feeBps =
      Except.ok (gross * feeBps / 10000, gross - gross * feeBps / 10000) := by
  unfold feeSplit
  rw [checkedSub_ok (fee_le_gross h)]

/-- For an existing active stream queried at a time past its start, the
accrual reduces to a single closed form: with
`earned = (min t stopTime - startTime) * ratePerSecond`, the result is
`(remainingBalance, 0)` once `earned ≥ deposit` and
`(earned, deposit - earned)` before that. -/
theorem balanceOf_active_ok (s : SPState) (t sid : Nat)
    (hid : (s.streams sid).id ≠ 0)
    (hact : (s.streams sid).active = true)
    (hse : (s.streams sid).startTime ≤ (s.streams sid).stopTime)
    (hst : (s.streams sid).startTime ≤ t) :
    balanceOf s t sid = Except.ok
      (if (s.streams sid).deposit ≤
          (min t (s.streams sid).stopTime - (s.streams sid).startTime) * (s.streams sid).ratePerSecond
       then ((s.streams sid).remainingBalance, 0)
       else ((min t (s.streams sid).stopTime - (s.streams sid).startTime) * (s.streams sid).ratePerSecond,
             (s.streams sid).deposit -
               (min t (s.streams sid).stopTime - (s.streams sid).startTime) * (s.streams sid).ratePerSecond)) := by
  by_cases hc : (s.streams sid).stopTime ≤ t
  · simp [balanceOf, checkedSub, hid, hact, hc, hse, min_eq_right hc]
    split <;> rfl
  · simp [balanceOf, checkedSub, hid, hact, hc, hst, min_eq_left (le_of_not_le hc)]
    split <;> rfl

/-- C4: on every settlement the fee is `floor(gross * feeBps / 10000)` and
the net payout plus the fee reconstitutes the gross amount exactly.  All
four settling operations (`withdrawFromStream`, `cancelStream`,
`processSubscriptionPayment`, `cancelSubscription`) compute their split
with `feeSplit`, whose outputs this theorem characterises for every fee
rate up to 100% (the contract keeps `platformFee ≤ 1000`). -/
theorem fee_split_exact (gross feeBps : Nat) (h : feeBps ≤ 10000) :
    feeSplit gross feeBps =
      Except.ok (gross * feeBps / 10000, gross - gross * feeBps / 10000) ∧
    (gross - gross * feeBps / 10000) + gross * feeBps / 10000 = gross :=
  ⟨feeSplit_ok h, Nat.sub_add_cancel (fee_le_gross h)⟩

theorem fee_split_exact_witness :
    feeSplit 1800 10 = Except.ok (1, 1799) ∧ (1799 : Nat) + 1 = 1800 :=
  fee_split_exact 1800 10 (by norm_num)

/-- C9: a never-allocated stream id holds the default (all-zero) record, so
`getStream` succeeds and returns zero/false fields, while `balanceOf`
rejects the same id with the non-existence error. -/
theorem getStream_unallocated (s : SPState) (streamId t : Nat)
    (h : s.streams streamId = Stream.default0) :
    getStream s streamId = StreamView.mk 0 0 0 0 0 0 0 false ∧
    balanceOf s t streamId = Except.error Err.streamNotFound := by
  unfold getStream balanceOf
  rw [h]
  exact ⟨rfl, rfl⟩

theorem getStream_unallocated_witness :
    getStream (initState 0) 42 = StreamView.mk 0 0 0 0 0 0 0 false ∧
    balanceOf (initState 0) 100 42 = Except.error Err.streamNotFound :=
  getStream_unallocated (initState 0) 42 100 rfl

/-- C1 counterexample: in the reachable state obtained by creating a
3600-unit stream (rate 1/s, duration 3600s, start 0) and withdrawing at
time 1800, the query at time 2000 — before `stopTime = 3600`, stream still
active — returns `(2000, 1600)` while `remainingBalance = 1800`, so
`recipientBalance + senderBalance ≠ remainingBalance` after a partial
withdrawal. -/
theorem balance_sum_after_withdrawal_cex :
    c1Run = Except.ok (2000, 1600, 1800, 3600, true) ∧
    2000 < 3600 ∧ 2000 + 1600 ≠ 1800 := by decide

/-- C1 amended: while a stream is active and no withdrawal has taken place
(`remainingBalance` still equals `deposit`), the pair returned by
`balanceOf` at any `startTime ≤ t < stopTime` sums to `remainingBalance`.
After a partial withdrawal the code's sum instead equals `deposit` while
`earned < deposit`, as the counterexample shows. -/
theorem balance_sum_invariant_amended (s : SPState) (t sid rb sb : Nat)
    (hid : (s.streams sid).id ≠ 0)
    (hact : (s.streams sid).active = true)
    (hnw : (s.streams sid).remainingBalance = (s.streams sid).deposit)
    (hst : (s.streams sid).startTime ≤ t)
    (ht : t < (s.streams sid).stopTime)
    (hbo : balanceOf s t sid = Except.ok (rb, sb)) :
    rb + sb = (s.streams sid).remainingBalance := by
  rw [balanceOf_active_ok s t sid hid hact (le_of_lt (lt_of_le_of_lt hst ht)) hst] at hbo
  split at hbo
  · rw [Except.ok.injEq, Prod.mk.injEq] at hbo
    omega
  · rw [Except.ok.injEq, Prod.mk.injEq] at hbo
    obtain ⟨h1, h2⟩ := hbo
    subst h1
    subst h2
    omega

theorem balance_sum_invariant_amended_witness :
    (1800 : Nat) + 1800 = (sW.streams 1).remainingBalance :=
  balance_sum_invariant_amended sW 1800 1 1800 1800 (by decide) (by decide) (by decide)
    (by decide) (by decide) (by decide)

/-- C2 counterexample: withdrawing from the scenario stream (deposit 3600,
rate 1/s, fee 10 bps) at `start + 1800` pays the recipient 1799 and
credits 1 to the platform balance entry — not 1798 and 2 as claimed,
since `floor(1800 * 10 / 10000) = 1`. -/
theorem withdraw_scenario_cex :
    c2Obs = Except.ok ([Event.mutate Field.streamRemainingBalance, Event.credit 0 1,
      Event.transfer 2 1799], 1, 1800, true) ∧
    (1799 ≠ 1798 ∧ 1 ≠ 2) := by decide

/-- C2 amended: in the scenario stream, `balanceOf` at `start + 1800`
returns `(1800, 1800)`; withdrawing there with `feeBps = 10` pays the
recipient `1800 - floor(1800 * 10 / 10000) = 1799`, credits 1 to the
platform account's balance entry, leaves `remainingBalance = 1800` and
leaves the stream active. -/
theorem withdraw_scenario_amended :
    balanceOf sW 1800 1 = Except.ok (1800, 1800) ∧
    c2Obs = Except.ok ([Event.mutate Field.streamRemainingBalance, Event.credit 0 1,
      Event.transfer 2 1799], 1, 1800, true) := by decide

/-- C3 counterexample: a successful `processSubscriptionPayment` (here on a
live subscription, 10 seconds accrued) performs the provider payout before
writing `lastPaymentTime`, so its trace has a state mutation after a value
transfer. -/
theorem transfer_order_cex :
    (processSubscriptionPayment subSW 1010 1).isOk = true ∧
    transfersLast (traceOrNil (processSubscriptionPayment subSW 1010 1)) = false := by decide

/-- C3 amended: stream withdrawal, stream cancellation and the generic
withdrawal do apply all state mutations before any outgoing transfer; but
every successful `processSubscriptionPayment` writes `lastPaymentTime`
after the provider payout, and every successful `cancelSubscription` that
performs a payout clears the `active` flag after it. -/
theorem transfer_order_amended :
    (∀ s t c i, traceProp transfersLast (withdrawFromStream s t c i) = true) ∧
    (∀ s t c i, traceProp transfersLast (cancelStream s t c i) = true) ∧
    (∀ s c, traceProp transfersLast (withdraw s c) = true) ∧
    (∀ s t i, traceProp (fun tr => !transfersLast tr)
        (processSubscriptionPayment s t i) = true) ∧
    (∀ s t c i, traceProp (fun tr => (!tr.any Event.isTransfer) || (!transfersLast tr))
        (cancelSubscription s t c i) = true) := by
  refine ⟨?_, ?_, ?_, ?_, ?_⟩
  · intro s t c i
    unfold withdrawFromStream
    dsimp only
    split
    · rfl
    split
    · rfl
    rcases hb : balanceOf s t i with er | ⟨rb, sb⟩
    · rfl
    dsimp only
    split
    · rfl
    rcases hf : feeSplit rb s.platformFee with er | ⟨fee, net⟩
    · rfl
    dsimp only
    rcases hc : checkedSub (s.streams i).remainingBalance rb with er | nr
    · rfl
    dsimp only
    split <;> simp [traceProp, transfersLast, Event.isMutation, Event.isTransfer]
  · intro s t c i
    unfold cancelStream
    dsimp only
    split
    · rfl
    split
    · rfl
    rcases hb : balanceOf s t i with er | ⟨rb, sb⟩
    · rfl
    dsimp only
    split
    · rcases hf : feeSplit rb s.platformFee with er | ⟨fee, net⟩
      · rfl
      dsimp only
      split <;> simp [traceProp, transfersLast, Event.isMutation, Event.isTransfer]
    · split <;> simp [traceProp, transfersLast, Event.isMutation, Event.isTransfer]
  · intro s c
    unfold withdraw
    dsimp only
    split
    · rfl
    simp [traceProp, transfersLast, Event.isMutation, Event.isTransfer]
  · intro s t i
    unfold processSubscriptionPayment
    dsimp only
    split
    · rfl
    rcases he : checkedSub t (s.subscriptions i).lastPaymentTime with er | elapsed
    · rfl
    dsimp only
    split
    · rfl
    rcases hf : feeSplit (elapsed * (s.subscriptions i).ratePerSecond) s.platformFee with er | ⟨fee, net⟩
    · rfl
    dsimp only
    simp [traceProp, transfersLast, Event.isMutation, Event.isTransfer]
  · intro s t c i
    unfold cancelSubscription
    dsimp only
    split
    · rfl
    split
    · rfl
    split
    · rcases he : checkedSub t (s.subscriptions i).lastPaymentTime with er | elapsed
      · rfl
      dsimp only
      split
      · rcases hf : feeSplit (elapsed * (s.subscriptions i).ratePerSecond) s.platformFee with er | ⟨fee, net⟩
        · rfl
        dsimp only
        simp [traceProp, transfersLast, Event.isMutation, Event.isTransfer]
      · simp [traceProp, transfersLast, Event.isMutation, Event.isTransfer]
    · simp [traceProp, transfersLast, Event.isMutation, Event.isTransfer]

theorem cancelStream_inactive (s : SPState) (t c sid : Nat)
    (h : (s.streams sid).active = false) :
    (cancelStream s t c sid).isOk = false := by
  unfold cancelStream
  dsimp only
  split
  all_goals rfl

theorem cancelSubscription_inactive (s : SPState) (t c sid : Nat)
    (h : (s.subscriptions sid).active = false) :
    (cancelSubscription s t c sid).isOk = false := by
  unfold cancelSubscription
  dsimp only
  split
  all_goals rfl

/-- C5: cancelling an active stream by its sender or recipient succeeds and
leaves it inactive with `remainingBalance = 0`, unconditionally (whatever
the accrual split summed to), and any second cancellation attempt on the
same stream fails. -/
theorem cancelStream_terminal (s : SPState) (t caller sid : Nat)
    (hid : (s.streams sid).id ≠ 0)
    (hauth : (s.streams sid).sender = caller ∨ (s.streams sid).recipient = caller)
    (hact : (s.streams sid).active = true)
    (hfee : s.platformFee ≤ 10000)
    (hse : (s.streams sid).startTime ≤ (s.streams sid).stopTime)
    (hst : (s.streams sid).startTime ≤ t) :
    (cancelStream s t caller sid).isOk = true ∧
    ((applyTx s (cancelStream s t caller sid)).streams sid).active = false ∧
    ((applyTx s (cancelStream s t caller sid)).streams sid).remainingBalance = 0 ∧
    ∀ t2 c2, (cancelStream (applyTx s (cancelStream s t caller sid)) t2 c2 sid).isOk = false := by
  have hA : ¬((s.streams sid).sender ≠ caller ∧ (s.streams sid).recipient ≠ caller) := by
    rcases hauth with h | h
    · exact fun hc => hc.1 h
    · exact fun hc => hc.2 h
  have key : (cancelStream s t caller sid).isOk = true ∧
      ((applyTx s (cancelStream s t caller sid)).streams sid).active = false ∧
      ((applyTx s (cancelStream s t caller sid)).streams sid).remainingBalance = 0 := by
    unfold cancelStream
    dsimp only
    rw [if_neg hA, if_neg (by simp [hact]), balanceOf_active_ok s t sid hid hact hse hst]
    by_cases hq : (s.streams sid).deposit ≤
        (min t (s.streams sid).stopTime - (s.streams sid).startTime) * (s.streams sid).ratePerSecond
    · rw [if_pos hq]
      dsimp only
      split
      · rw [feeSplit_ok hfee]
        simp [applyTx, Except.isOk, Except.toBool]
      · simp [applyTx, Except.isOk, Except.toBool]
    · rw [if_neg hq]
      dsimp only
      split
      · rw [feeSplit_ok hfee]
        simp [applyTx, Except.isOk, Except.toBool]
      · simp [applyTx, Except.isOk, Except.toBool]
  exact ⟨key.1, key.2.1, key.2.2,
    fun t2 c2 => cancelStream_inactive _ t2 c2 sid key.2.1⟩

theorem cancelStream_terminal_witness :
    (cancelStream sW 900 1 1).isOk = true ∧
    ((applyTx sW (cancelStream sW 900 1 1)).streams 1).active = false ∧
    ((applyTx sW (cancelStream sW 900 1 1)).streams 1).remainingBalance = 0 ∧
    (cancelStream (applyTx sW (cancelStream sW 900 1 1)) 901 2 1).isOk = false := by
  have h := cancelStream_terminal sW 900 1 1 (by decide) (Or.inl rfl) (by decide)
    (by decide) (by decide) (by decide)
  exact ⟨h.1, h.2.1, h.2.2.1, h.2.2.2 901 2⟩

/-- C6: when an active subscription has accrued more than the subscriber's
shared balance, `processSubscriptionPayment` fails with the
insufficient-balance error and the transaction leaves the state unchanged
— in particular `lastPaymentTime` keeps its prior value. -/
theorem processPayment_insufficient (s : SPState) (t sid : Nat)
    (hact : (s.subscriptions sid).active = true)
    (ht : (s.subscriptions sid).lastPaymentTime ≤ t)
    (hins : s.balances (s.subscriptions sid).subscriber <
      (t - (s.subscriptions sid).lastPaymentTime) * (s.subscriptions sid).ratePerSecond) :
    processSubscriptionPayment s t sid = Except.error Err.insufficientBalance ∧
    applyTx s (processSubscriptionPayment s t sid) = s := by
  have h1 : processSubscriptionPayment s t sid = Except.error Err.insufficientBalance := by
    unfold processSubscriptionPayment
    dsimp only
    rw [if_neg (by simp [hact]), checkedSub_ok ht]
    dsimp only
    rw [if_pos hins]
  exact ⟨h1, by rw [h1]; rfl⟩

theorem processPayment_insufficient_witness :
    processSubscriptionPayment subSW 1030 1 = Except.error Err.insufficientBalance ∧
    applyTx subSW (processSubscriptionPayment subSW 1030 1) = subSW :=
  processPayment_insufficient subSW 1030 1 (by decide) (by decide) (by decide)

/-- C7: cancelling an active subscription (by subscriber or provider, at a
time past the last settlement, with the usual fee-rate bound and a
subscriber distinct from the platform account) always succeeds and marks
it inactive; when the shared balance covers the accrued
`payment = elapsed * ratePerSecond` the final settlement is applied (the
subscriber is debited `payment`, the owner credited the fee, and — when
`payment > 0` — the net is transferred to the provider), when the balance
is insufficient the settlement is silently skipped and the balance table
is untouched; a second cancellation of the same subscription fails. -/
theorem cancelSubscription_final (s : SPState) (t caller sid payment fee : Nat)
    (hauth : (s.subscriptions sid).subscriber = caller ∨ (s.subscriptions sid).provider = caller)
    (hact : (s.subscriptions sid).active = true)
    (ht : (s.subscriptions sid).lastPaymentTime ≤ t)
    (hfee : s.platformFee ≤ 10000)
    (hown : (s.subscriptions sid).subscriber ≠ s.owner)
    (hpay : payment = (t - (s.subscriptions sid).lastPaymentTime) * (s.subscriptions sid).ratePerSecond)
    (hfe : fee = payment * s.platformFee / 10000) :
    (cancelSubscription s t caller sid).isOk = true ∧
    ((applyTx s (cancelSubscription s t caller sid)).subscriptions sid).active = false ∧
    (payment ≤ s.balances (s.subscriptions sid).subscriber →
      (applyTx s (cancelSubscription s t caller sid)).balances (s.subscriptions sid).subscriber
        = s.balances (s.subscriptions sid).subscriber - payment ∧
      (applyTx s (cancelSubscription s t caller sid)).balances s.owner
        = s.balances s.owner + fee ∧
      (0 < payment → Event.transfer (s.subscriptions sid).provider (payment - fee)
        ∈ traceOrNil (cancelSubscription s t caller sid))) ∧
    (s.balances (s.subscriptions sid).subscriber < payment →
      (applyTx s (cancelSubscription s t caller sid)).balances = s.balances) ∧
    ∀ t2 c2, (cancelSubscription (applyTx s (cancelSubscription s t caller sid)) t2 c2 sid).isOk = false := by
  subst hfe
  subst hpay
  have hA : ¬((s.subscriptions sid).subscriber ≠ caller ∧ (s.subscriptions sid).provider ≠ caller) := by
    rcases hauth with h | h
    · exact fun hc => hc.1 h
    · exact fun hc => hc.2 h
  have key : (cancelSubscription s t caller sid).isOk = true ∧
      ((applyTx s (cancelSubscription s t caller sid)).subscriptions sid).active = false ∧
      ((t - (s.subscriptions sid).lastPaymentTime) * (s.subscriptions sid).ratePerSecond ≤
          s.balances (s.subscriptions sid).subscriber →
        (applyTx s (cancelSubscription s t caller sid)).balances (s.subscriptions sid).subscriber
          = s.balances (s.subscriptions sid).subscriber -
            (t - (s.subscriptions sid).lastPaymentTime) * (s.subscriptions sid).ratePerSecond ∧
        (applyTx s (cancelSubscription s t caller sid)).balances s.owner
          = s.balances s.owner +
            (t - (s.subscriptions sid).lastPaymentTime) * (s.subscriptions sid).ratePerSecond *
              s.platformFee / 10000 ∧
        (0 < (t - (s.subscriptions sid).lastPaymentTime) * (s.subscriptions sid).ratePerSecond →
          Event.transfer (s.subscriptions sid).provider
              ((t - (s.subscriptions sid).lastPaymentTime) * (s.subscriptions sid).ratePerSecond -
                (t - (s.subscriptions sid).lastPaymentTime) * (s.subscriptions sid).ratePerSecond *
                  s.platformFee / 10000)
            ∈ traceOrNil (cancelSubscription s t caller sid))) ∧
      (s.balances (s.subscriptions sid).subscriber <
          (t - (s.subscriptions sid).lastPaymentTime) * (s.subscriptions sid).ratePerSecond →
        (applyTx s (cancelSubscription s t caller sid)).balances = s.balances) := by
    unfold cancelSubscription
    dsimp only
    rw [if_neg hA, if_neg (by simp [hact])]
    by_cases hb0 : 0 < s.balances (s.subscriptions sid).subscriber
    · rw [if_pos hb0, checkedSub_ok ht]
      dsimp only
      by_cases hcv : 0 < (t - (s.subscriptions sid).lastPaymentTime) * (s.subscriptions sid).ratePerSecond ∧
          (t - (s.subscriptions sid).lastPaymentTime) * (s.subscriptions sid).ratePerSecond ≤
            s.balances (s.subscriptions sid).subscriber
      · rw [if_pos hcv, feeSplit_ok hfee]
        dsimp only
        refine ⟨rfl, by simp [applyTx], fun hc => ⟨?_, ?_, fun hp => ?_⟩, fun hlt => ?_⟩
        · simp [applyTx, hown]
        · simp [applyTx, Ne.symm hown]
        · simp [traceOrNil]
        · exact absurd hcv.2 (Nat.not_le.mpr hlt)
      · rw [if_neg hcv]
        try dsimp only
        have hp0 : (t - (s.subscriptions sid).lastPaymentTime) * (s.subscriptions sid).ratePerSecond ≤
              s.balances (s.subscriptions sid).subscriber →
            (t - (s.subscriptions sid).lastPaymentTime) * (s.subscriptions sid).ratePerSecond = 0 := by
          intro hc
          rcases Nat.eq_zero_or_pos ((t - (s.subscriptions sid).lastPaymentTime) *
            (s.subscriptions sid).ratePerSecond) with h | h
          · exact h
          · exact absurd ⟨h, hc⟩ hcv
        refine ⟨rfl, by simp [applyTx], fun hc => ⟨?_, ?_, fun hp => ?_⟩, fun hlt => ?_⟩
        · simp [applyTx, hp0 hc]
        · simp [applyTx, hp0 hc]
        · exact absurd hp (by simp [hp0 hc])
        · simp [applyTx]
    · rw [if_neg hb0]
      try dsimp only
      have hz : s.balances (s.subscriptions sid).subscriber = 0 := Nat.eq_zero_of_not_pos hb0
      have hp0 : (t - (s.subscriptions sid).lastPaymentTime) * (s.subscriptions sid).ratePerSecond ≤
            s.balances (s.subscriptions sid).subscriber →
          (t - (s.subscriptions sid).lastPaymentTime) * (s.subscriptions sid).ratePerSecond = 0 := by
        intro hc
        omega
      refine ⟨rfl, by simp [applyTx], fun hc => ⟨?_, ?_, fun hp => ?_⟩, fun hlt => ?_⟩
      · simp [applyTx, hp0 hc]
      · simp [applyTx, hp0 hc]
      · exact absurd hp (by simp [hp0 hc])
      · simp [applyTx]
  exact ⟨key.1, key.2.1, key.2.2.1, key.2.2.2,
    fun t2 c2 => cancelSubscription_inactive _ t2 c2 sid key.2.1⟩

theorem cancelSubscription_final_witness :
    (cancelSubscription subSW 1010 3 1).isOk = true ∧
    ((applyTx subSW (cancelSubscription subSW 1010 3 1)).subscriptions 1).active = false ∧
    (applyTx subSW (cancelSubscription subSW 1010 3 1)).balances (subSW.subscriptions 1).subscriber
      = subSW.balances (subSW.subscriptions 1).subscriber - 50 ∧
    (applyTx subSW (cancelSubscription subSW 1010 3 1)).balances subSW.owner
      = subSW.balances subSW.owner + 0 ∧
    Event.transfer (subSW.subscriptions 1).provider (50 - 0)
      ∈ traceOrNil (cancelSubscription subSW 1010 3 1) ∧
    (cancelSubscription (applyTx subSW (cancelSubscription subSW 1010 3 1)) 2000 4 1).isOk = false := by
  have h := cancelSubscription_final subSW 1010 3 1 50 0 (Or.inl rfl) (by decide) (by decide)
    (by decide) (by decide) (by decide) (by decide)
  obtain ⟨h1, h2, h3, h4, h5⟩ := h
  have hc := h3 (by decide)
  exact ⟨h1, h2, hc.1, hc.2.1, hc.2.2 (by decide), h5 2000 4⟩

/-- C8: on an active stream with no intervening withdrawal
(`remainingBalance = deposit`, with the creation invariants
`deposit = ratePerSecond * (stopTime - startTime)` and
`startTime ≤ stopTime`), the `recipientBalance` component of `balanceOf`
is non-decreasing in the query time, and at any `t ≥ stopTime` it equals
`remainingBalance` and never exceeds `deposit`, however far `t` runs past
`stopTime`. -/
theorem recipient_balance_monotone (s : SPState) (sid : Nat)
    (hid : (s.streams sid).id ≠ 0)
    (hact : (s.streams sid).active = true)
    (hnw : (s.streams sid).remainingBalance = (s.streams sid).deposit)
    (hdep : (s.streams sid).deposit =
      (s.streams sid).ratePerSecond * ((s.streams sid).stopTime - (s.streams sid).startTime))
    (hse : (s.streams sid).startTime ≤ (s.streams sid).stopTime) :
    (∀ t1 t2 rb1 sb1 rb2 sb2, (s.streams sid).startTime ≤ t1 → t1 ≤ t2 →
      balanceOf s t1 sid = Except.ok (rb1, sb1) →
      balanceOf s t2 sid = Except.ok (rb2, sb2) → rb1 ≤ rb2) ∧
    (∀ t rb sb, (s.streams sid).stopTime ≤ t →
      balanceOf s t sid = Except.ok (rb, sb) →
      rb = (s.streams sid).remainingBalance ∧ rb ≤ (s.streams sid).deposit) := by
  have hchar : ∀ t rb sb, (s.streams sid).startTime ≤ t →
      balanceOf s t sid = Except.ok (rb, sb) →
      rb = min ((min t (s.streams sid).stopTime - (s.streams sid).startTime) *
        (s.streams sid).ratePerSecond) (s.streams sid).deposit := by
    intro t rb sb hst hbo
    rw [balanceOf_active_ok s t sid hid hact hse hst] at hbo
    split at hbo
    · next hge =>
      rw [Except.ok.injEq, Prod.mk.injEq] at hbo
      rw [← hbo.1, hnw, min_eq_right hge]
    · next hlt =>
      rw [Except.ok.injEq, Prod.mk.injEq] at hbo
      rw [← hbo.1, min_eq_left (le_of_not_le hlt)]
  constructor
  · intro t1 t2 rb1 sb1 rb2 sb2 h1 h12 hb1 hb2
    rw [hchar t1 rb1 sb1 h1 hb1, hchar t2 rb2 sb2 (le_trans h1 h12) hb2]
    refine min_le_min (mul_le_mul_right' (Nat.sub_le_sub_right ?_ _) _) le_rfl
    exact min_le_min h12 le_rfl
  · intro t rb sb hstop hbo
    have he : (min t (s.streams sid).stopTime - (s.streams sid).startTime) *
        (s.streams sid).ratePerSecond = (s.streams sid).deposit := by
      rw [min_eq_right hstop, Nat.mul_comm]
      exact hdep.symm
    rw [hchar t rb sb (le_trans hse hstop) hbo, he, min_self]
    exact ⟨hnw.symm, le_rfl⟩

theorem recipient_balance_monotone_witness :
    ((900 : Nat) ≤ 1800) ∧
    ((3600 : Nat) = (sW.streams 1).remainingBalance ∧ (3600 : Nat) ≤ (sW.streams 1).deposit) := by
  have h := recipient_balance_monotone sW 1 (by decide) (by decide) (by decide)
    (by decide) (by decide)
  exact ⟨h.1 900 1800 900 2700 1800 1800 (by decide) (by decide) (by decide) (by decide),
    h.2 5000 3600 0 (by decide) (by decide)⟩

/-- C10: settling an active subscription at a time equal to its
`lastPaymentTime` succeeds rather than rejecting the nothing-to-pay case:
the balance table is left unchanged (a debit of 0 and a fee credit of 0),
a transfer of 0 goes to the provider, and `lastPaymentTime` is
(re)written to the current time. -/
theorem processPayment_zero_elapsed (s : SPState) (t sid : Nat)
    (hact : (s.subscriptions sid).active = true)
    (ht : (s.subscriptions sid).lastPaymentTime = t) :
    (processSubscriptionPayment s t sid).isOk = true ∧
    (applyTx s (processSubscriptionPayment s t sid)).balances = s.balances ∧
    ((applyTx s (processSubscriptionPayment s t sid)).subscriptions sid).lastPaymentTime = t ∧
    traceOrNil (processSubscriptionPayment s t sid) =
      [Event.debit (s.subscriptions sid).subscriber 0, Event.credit s.owner 0,
       Event.transfer (s.subscriptions sid).provider 0, Event.mutate Field.subLastPaymentTime] := by
  have h0 : checkedSub t (s.subscriptions sid).lastPaymentTime = Except.ok 0 := by
    rw [ht, checkedSub_ok (le_refl t), Nat.sub_self]
  have hnl : ¬(s.balances (s.subscriptions sid).subscriber <
      0 * (s.subscriptions sid).ratePerSecond) := by
    simp
  have hfs : feeSplit (0 * (s.subscriptions sid).ratePerSecond) s.platformFee =
      Except.ok (0, 0) := by
    simp [feeSplit, checkedSub]
  unfold processSubscriptionPayment
  dsimp only
  rw [if_neg (by simp [hact]), h0]
  dsimp only
  rw [if_neg hnl, hfs]
  dsimp only
  refine ⟨rfl, ?_, by simp [applyTx], by simp [traceOrNil]⟩
  funext a
  by_cases h1 : a = s.owner <;> by_cases h2 : a = (s.subscriptions sid).subscriber <;>
    simp [applyTx, h1, h2] <;> simp_all

theorem processPayment_zero_elapsed_witness :
    (processSubscriptionPayment subSW 1000 1).isOk = true ∧
    (applyTx subSW (processSubscriptionPayment subSW 1000 1)).balances = subSW.balances ∧
    ((applyTx subSW (processSubscriptionPayment subSW 1000 1)).subscriptions 1).lastPaymentTime = 1000 ∧
    traceOrNil (processSubscriptionPayment subSW 1000 1) =
      [Event.debit (subSW.subscriptions 1).subscriber 0, Event.credit subSW.owner 0,
       Event.transfer (subSW.subscriptions 1).provider 0, Event.mutate Field.subLastPaymentTime] :=
  processPayment_zero_elapsed subSW 1000 1 (by decide) (by decide)

end StreamPay
